import Mathlib

/-!
# CrashWin crash-game engine: shallow embedding and verification

This file embeds the server core of the CrashWin crash-gambling game
(`src/server/crashEngine.ts`, `src/server/storage.ts`,
`src/server/utils/hash.ts`) in Lean 4 and proves or refutes the frozen
specification claims about it.

Modelling conventions:
* Monetary strings (`"100.00"`) and multipliers are modelled as exact
  rationals `ℚ`; JavaScript `toFixed(2)` / `Math.round(x*100)/100` become
  the two-decimal rounding `round2`.
* `Math.floor` becomes `Int.floor`.
* The in-memory maps of `MemStorage` become lists keyed by `id`;
  a map update ("get, mutate, set") becomes a keyed `List.map` update.
* Nondeterminism is made explicit as parameters: `Math.random()` draws,
  `crypto.randomBytes` salts and `randomUUID` identifiers are inputs,
  and the SHA-256 primitive from the `crypto` library is a function
  parameter.
* Async methods are sequential in the source (each `await` completes
  before the next statement); they become pure state-passing functions
  returning the updated storage plus the list of emitted events.
-/

namespace CrashWin

/-- Two-decimal monetary rounding: JavaScript `Math.round(x*100)/100` and
`(x).toFixed(2)` for the nonnegative values arising in this program. -/
def round2 (x : ℚ) : ℚ := ((x * 100 + 1/2).floor : ℚ) / 100

/-- `User` record from `shared/schema.ts` / `storage.ts` (fields the engine
reads; `password`, `avatar`, `createdAt` are never consulted by the core). -/
structure User where
  id : String
  username : String
  balance : ℚ
  deriving Repr, DecidableEq

/-- `Game` record created by `MemStorage.createGame`. `crashed` models
`crashedAt !== null`. -/
structure Game where
  id : String
  roundId : Nat
  multiplier : ℚ
  hash : String
  salt : Option String
  crashed : Bool
  deriving Repr, DecidableEq

/-- `Bet` record created by `MemStorage.createBet`. -/
structure Bet where
  id : String
  userId : String
  gameId : String
  amount : ℚ
  autoCashOut : Option ℚ
  cashOutAt : Option ℚ
  winAmount : Option ℚ
  isActive : Bool
  deriving Repr, DecidableEq

/-- The three maps of `MemStorage` that the engine core touches. -/
structure Storage where
  users : List User
  games : List Game
  bets : List Bet
  deriving Repr, DecidableEq

namespace Storage

/-- `MemStorage.getUser`. -/
def getUser (s : Storage) (id : String) : Option User :=
  s.users.find? (fun u => u.id == id)

/-- `MemStorage.updateUserBalance`: mutate the balance of the user stored
under `userId` (map keys are unique, so the keyed-map update touches
exactly that entry). -/
def updateUserBalance (s : Storage) (userId : String) (newBalance : ℚ) : Storage :=
  { s with users := s.users.map (fun u =>
      if u.id == userId then { u with balance := newBalance } else u) }

/-- `MemStorage.getGameByRoundId`. -/
def getGameByRoundId (s : Storage) (roundId : Nat) : Option Game :=
  s.games.find? (fun g => g.roundId == roundId)

/-- `MemStorage.updateGameCrash`. -/
def updateGameCrash (s : Storage) (gameId : String) (multiplier : ℚ)
    (salt : String) : Storage :=
  { s with games := s.games.map (fun g =>
      if g.id == gameId then
        { g with multiplier := multiplier, salt := some salt, crashed := true }
      else g) }

/-- `MemStorage.getBetsByUserId`. -/
def getBetsByUserId (s : Storage) (userId : String) : List Bet :=
  s.bets.filter (fun b => b.userId == userId)

/-- `MemStorage.getActiveBetsByGameId`. -/
def getActiveBetsByGameId (s : Storage) (gameId : String) : List Bet :=
  s.bets.filter (fun b => b.gameId == gameId && b.isActive)

/-- `MemStorage.updateBetCashOut`: the settlement write — fixes
`cashOutAt` and `winAmount` and clears `isActive`. -/
def updateBetCashOut (s : Storage) (betId : String) (cashOutAt winAmount : ℚ) :
    Storage :=
  { s with bets := s.bets.map (fun b =>
      if b.id == betId then
        { b with cashOutAt := some cashOutAt, winAmount := some winAmount,
                 isActive := false }
      else b) }

/-- `MemStorage.createBet`: the fresh `randomUUID` is the `newId` input. -/
def createBet (s : Storage) (userId gameId : String) (amount : ℚ)
    (autoCashOut : Option ℚ) (newId : String) : Storage :=
  { s with bets := s.bets ++
      [{ id := newId, userId := userId, gameId := gameId, amount := amount,
         autoCashOut := autoCashOut, cashOutAt := none, winAmount := none,
         isActive := true }] }

end Storage

/-- Phase union of `GameState` in `crashEngine.ts` (the server never sets
`starting`, but the type admits it). -/
inductive Phase
  | waiting
  | starting
  | flying
  | crashed
  deriving Repr, DecidableEq

/-- The in-engine `GameState` (field `currentGame`). -/
structure GameState where
  roundId : Nat
  phase : Phase
  multiplier : ℚ
  startTime : ℚ
  duration : ℚ
  hash : String
  salt : Option String
  countdown : ℚ
  deriving Repr, DecidableEq

/-- `getPublicGameState` return type: the `GameState` fields minus `salt`. -/
structure PublicGameState where
  roundId : Nat
  phase : Phase
  multiplier : ℚ
  startTime : ℚ
  duration : ℚ
  hash : String
  countdown : ℚ
  deriving Repr, DecidableEq

/-- Events emitted by the engine (`this.emit(...)` calls). -/
inductive Event
  | gameStateUpdate (st : PublicGameState)
  | betCashedOut (betId userId : String) (multiplier winAmount : ℚ)
  | betPlaced (userId : String) (amount : ℚ) (autoCashOut : Option ℚ) (roundId : Nat)
  | gameCrashed (roundId : Nat) (crashPoint : ℚ)
  deriving Repr, DecidableEq

/-- `CrashEngine.getPublicGameState`: destructures `salt` away and returns
the rest; the `currentGame == null` branch returns the fixed default. -/
def getPublicGameState (currentGame : Option GameState) : PublicGameState :=
  match currentGame with
  | none =>
      { roundId := 0, phase := Phase.waiting, multiplier := 1,
        startTime := 0, duration := 0, hash := "", countdown := 10 }
  | some g =>
      { roundId := g.roundId, phase := g.phase, multiplier := g.multiplier,
        startTime := g.startTime, duration := g.duration, hash := g.hash,
        countdown := g.countdown }

/-- `CrashEngine.cashOutBet`: looks the bet up among the bets of the user,
requiring `b.id === betId && b.isActive`; when found, records
`winAmount = (amount * multiplier).toFixed(2)`, settles the bet, credits
the balance of the user and emits `betCashedOut`; otherwise does nothing. -/
def cashOutBet (s : Storage) (betId userId : String) (multiplier : ℚ) :
    Storage × List Event :=
  let bet := s.getBetsByUserId userId
  match bet.find? (fun b => b.id == betId && b.isActive) with
  | none => (s, [])
  | some targetBet =>
      let winAmount := round2 (targetBet.amount * multiplier)
      let s1 := s.updateBetCashOut betId multiplier winAmount
      let s2 :=
        match s1.getUser userId with
        | some user => s1.updateUserBalance userId (round2 (user.balance + winAmount))
        | none => s1
      (s2, [Event.betCashedOut betId userId multiplier winAmount])

/-- `CrashEngine.processAutoCashOuts`: over the list of active bets of the
current round (captured once), settles each bet whose `autoCashOut`
threshold is at most the current multiplier — passing the live engine
`currentGame.multiplier` value to `cashOutBet`. -/
def processAutoCashOuts (g : GameState) (s : Storage) : Storage × List Event :=
  match s.getGameByRoundId g.roundId with
  | none => (s, [])
  | some gameFromDb =>
      let activeBets := s.getActiveBetsByGameId gameFromDb.id
      activeBets.foldl
        (fun acc b =>
          match b.autoCashOut with
          | some threshold =>
              if threshold ≤ g.multiplier then
                let r := cashOutBet acc.1 b.id b.userId g.multiplier
                (r.1, acc.2 ++ r.2)
              else acc
          | none => acc)
        (s, [])

/-- `CrashEngine.generateCrashPoint`: `Math.max(1, Math.floor((99 / (r *
100)) * 100) / 100)` for a fresh `Math.random()` draw `r`. -/
def generateCrashPoint (r : ℚ) : ℚ :=
  max 1 (((99 / (r * 100) * 100).floor : ℚ) / 100)

/-- The multiplier formula of the FLYING tick loop:
`Math.round((1 + (elapsed / 1000) * 0.1) * 100) / 100`. -/
def tickMultiplier (elapsedMs : ℚ) : ℚ :=
  round2 (1 + elapsedMs / 1000 * (1/10))

/-- `CrashEngine.crashGame`: freezes the multiplier, sets the phase to
`crashed`, records crash data when the round is in storage and a salt
exists, sweeps every still-active bet of the round to `("0.00","0.00")`
via `updateBetCashOut`, and emits `gameCrashed` plus a state update. -/
def crashGame (g : GameState) (s : Storage) : GameState × Storage × List Event :=
  if g.phase ≠ Phase.flying then (g, s, [])
  else
    let crashMultiplier := g.multiplier
    let g1 := { g with phase := Phase.crashed }
    let gameFromDb := s.getGameByRoundId g.roundId
    let s1 :=
      match gameFromDb, g.salt with
      | some db, some salt => s.updateGameCrash db.id crashMultiplier salt
      | _, _ => s
    let s2 :=
      match gameFromDb with
      | some db =>
          (s1.getActiveBetsByGameId db.id).foldl
            (fun acc b => acc.updateBetCashOut b.id 0 0) s1
      | none => s1
    (g1, s2,
      [Event.gameCrashed g.roundId crashMultiplier,
       Event.gameStateUpdate (getPublicGameState (some g1))])

/-- The per-flight context computed once at `startFlying` entry: the start
timestamp and `gameEndTime = startTime + crashPoint * 1000`. -/
structure FlyingCtx where
  startTime : ℚ
  gameEndTime : ℚ
  deriving Repr, DecidableEq

/-- `CrashEngine.startFlying`: enters FLYING, records the start timestamp,
resets the multiplier to 1.00, and fixes the crash deadline once from
`generateCrashPoint` applied to the random draw `r`. -/
def startFlying (now : ℚ) (r : ℚ) (g : GameState) : GameState × FlyingCtx :=
  ({ g with phase := Phase.flying, startTime := now, multiplier := 1 },
   { startTime := now, gameEndTime := now + generateCrashPoint r * 1000 })

/-- One iteration of the `setInterval` body installed by `startFlying`:
recomputes the multiplier from elapsed time, runs the auto-cash-out scan,
emits a state update, and crashes the game once `Date.now() >=
gameEndTime`. -/
def flyingTick (ctx : FlyingCtx) (now : ℚ) (g : GameState) (s : Storage) :
    GameState × Storage × List Event :=
  if g.phase ≠ Phase.flying then (g, s, [])
  else
    let elapsed := now - ctx.startTime
    let g1 := { g with multiplier := tickMultiplier elapsed }
    let r1 := processAutoCashOuts g1 s
    let evs := r1.2 ++ [Event.gameStateUpdate (getPublicGameState (some g1))]
    if ctx.gameEndTime ≤ now then
      let r2 := crashGame g1 r1.1
      (r2.1, r2.2.1, evs ++ r2.2.2)
    else (g1, r1.1, evs)

/-- Result record of `CrashEngine.placeBet`. -/
structure PlaceBetResult where
  success : Bool
  message : String
  betId : Option String
  deriving Repr, DecidableEq

/-- `CrashEngine.placeBet`: the guard cascade (phase, user existence,
amount positivity, balance sufficiency, round persistence, duplicate
active bet) followed by the debit-and-create step; the fresh bet id from
`randomUUID` is the `newBetId` input. -/
def placeBet (currentGame : Option GameState) (s : Storage)
    (userId : String) (amount : ℚ) (autoCashOut : Option ℚ)
    (newBetId : String) : PlaceBetResult × Storage × List Event :=
  match currentGame with
  | none =>
      ({ success := false, message := "Betting is not available right now",
         betId := none }, s, [])
  | some g =>
      if g.phase ≠ Phase.waiting then
        ({ success := false, message := "Betting is not available right now",
           betId := none }, s, [])
      else
        match s.getUser userId with
        | none => ({ success := false, message := "User not found",
                     betId := none }, s, [])
        | some user =>
            if amount ≤ 0 then
              ({ success := false,
                 message := "Bet amount must be greater than 0",
                 betId := none }, s, [])
            else if user.balance < amount then
              ({ success := false, message := "Insufficient balance",
                 betId := none }, s, [])
            else
              match s.getGameByRoundId g.roundId with
              | none => ({ success := false, message := "Game not found",
                           betId := none }, s, [])
              | some gameFromDb =>
                  let existingBets := s.getBetsByUserId userId
                  let hasActiveBet := existingBets.any
                    (fun b => b.gameId == gameFromDb.id && b.isActive)
                  if hasActiveBet then
                    ({ success := false,
                       message := "You already have a bet placed for this round",
                       betId := none }, s, [])
                  else
                    let newBalance := round2 (user.balance - amount)
                    let s1 := s.updateUserBalance userId newBalance
                    let s2 := s1.createBet userId gameFromDb.id amount
                      autoCashOut newBetId
                    ({ success := true, message := "Bet placed successfully",
                       betId := some newBetId }, s2,
                     [Event.betPlaced userId amount autoCashOut g.roundId])

/-- `generateHash` from `utils/hash.ts`: the SHA-256 hex primitive of the
`crypto` library is the parameter `sha256hex`, the random 32-byte salt is
the input `salt`; commits to the string `"<roundId>:<salt>"`. -/
def generateHash (sha256hex : String → String) (roundId : Nat) (salt : String) :
    String × String :=
  let data := toString roundId ++ ":" ++ salt
  (sha256hex data, salt)

/-- `verifyHash` from `utils/hash.ts`: recomputes the commitment and
equality-checks it. -/
def verifyHash (sha256hex : String → String) (roundId : Nat) (salt : String)
    (expectedHash : String) : Bool :=
  let data := toString roundId ++ ":" ++ salt
  sha256hex data == expectedHash

/-- `generateGameSeed` from `utils/hash.ts`: hashes
`"<serverSeed>:<roundId>"`, with the environment variable defaulted.
(Defined in the source but never called by the engine.) -/
def generateGameSeed (sha256hex : String → String)
    (serverSeedEnv : Option String) (roundId : Nat) : String :=
  let serverSeed := serverSeedEnv.getD "default_server_seed_for_development"
  sha256hex (serverSeed ++ ":" ++ toString roundId)


/-! ## Helper lemmas -/

/-- The executable `Rat.floor` agrees with the mathematical floor. -/
lemma ratFloor_eq_intFloor (q : ℚ) : q.floor = ⌊q⌋ :=
  (Rat.floor_def' q).trans Rat.floor_def.symm

/-- `round2` is monotone. -/
lemma round2_mono {x y : ℚ} (h : x ≤ y) : round2 x ≤ round2 y := by
  unfold round2
  rw [ratFloor_eq_intFloor, ratFloor_eq_intFloor]
  have hf : ⌊x * 100 + 1/2⌋ ≤ ⌊y * 100 + 1/2⌋ := Int.floor_mono (by linarith)
  have hc : ((⌊x * 100 + 1/2⌋ : ℤ) : ℚ) ≤ ((⌊y * 100 + 1/2⌋ : ℤ) : ℚ) := by
    exact_mod_cast hf
  linarith

/-- A sample waiting-state round used by concrete witnesses. -/
def waitingGame : GameState :=
  { roundId := 127535, phase := Phase.waiting, multiplier := 1, startTime := 0,
    duration := 0, hash := "h", salt := some "s", countdown := 10 }

/-! ## Theorems about the claims -/

/-- Claim C8: commitment round-trip — for every hash primitive, round id
and salt, `verifyHash` accepts the `(hash, salt)` pair produced by
`generateHash` for that round id. -/
theorem commit_verify_roundtrip (sha256hex : String → String) (roundId : Nat)
    (salt : String) :
    verifyHash sha256hex roundId (generateHash sha256hex roundId salt).2
      (generateHash sha256hex roundId salt).1 = true := by
  simp [verifyHash, generateHash]

/-- Claim C9: the public game state is independent of the secret salt —
two engine states that differ only in their `salt` field produce identical
public snapshots, because `getPublicGameState` projects `salt` away. -/
theorem getPublicGameState_salt_independent (g : GameState)
    (s1 s2 : Option String) :
    getPublicGameState (some { g with salt := s1 }) =
      getPublicGameState (some { g with salt := s2 }) := rfl

/-- Claim C3 (code bug): `generateCrashPoint` consumes only a fresh
`Math.random()` draw — it takes neither the seed nor the round id — so for
a fixed `(seed, roundId)` two evaluations with different draws yield
different crash multipliers (draw 1/2 gives 1.98, draw 1/4 gives 3.96): the
crash point is not a deterministic function of `(seed, roundId)` and cannot
be recomputed from the revealed seed. -/
theorem generateCrashPoint_depends_on_random_draw :
    generateCrashPoint (1/2) = 198/100 ∧ generateCrashPoint (1/4) = 396/100 ∧
      (198/100 : ℚ) ≠ 396/100 := by
  refine ⟨?_, ?_, by norm_num⟩ <;>
    norm_num [generateCrashPoint, Rat.floor_def']

/-- Claim C7: at FLYING entry the multiplier is reset to exactly 1.00, the
tick formula gives 1.00 at elapsed time 0, and the multiplier computed on
ticks is a monotone non-decreasing function of elapsed time. -/
theorem multiplier_one_at_entry_and_monotone (now r : ℚ) (g : GameState) :
    (startFlying now r g).1.multiplier = 1 ∧ tickMultiplier 0 = 1 ∧
      ∀ e1 e2 : ℚ, e1 ≤ e2 → tickMultiplier e1 ≤ tickMultiplier e2 := by
  refine ⟨rfl, ?_, ?_⟩
  · norm_num [tickMultiplier, round2, Rat.floor_def']
  · intro e1 e2 h
    unfold tickMultiplier
    apply round2_mono
    nlinarith

/-- Witness for C7 at concrete inputs: the sample round, draw 1/2, and
elapsed times 100 ≤ 300 ms. -/
theorem multiplier_one_at_entry_and_monotone_witness :
    (startFlying 0 (1/2) waitingGame).1.multiplier = 1 ∧
      tickMultiplier 0 = 1 ∧ tickMultiplier 100 ≤ tickMultiplier 300 := by
  refine ⟨?_, ?_, ?_⟩
  · exact (multiplier_one_at_entry_and_monotone 0 (1/2) waitingGame).1
  · exact (multiplier_one_at_entry_and_monotone 0 (1/2) waitingGame).2.1
  · exact (multiplier_one_at_entry_and_monotone 0 (1/2) waitingGame).2.2
      100 300 (by norm_num)


/-- A storage whose only bet is already settled (`isActive = false`). -/
def settledBetStorage : Storage :=
  { users := [{ id := "u1", username := "alice", balance := 1000 }],
    games := [{ id := "g1", roundId := 127535, multiplier := 0, hash := "h",
                salt := some "s", crashed := false }],
    bets := [{ id := "b1", userId := "u1", gameId := "g1", amount := 100,
               autoCashOut := none, cashOutAt := some 2, winAmount := some 200,
               isActive := false }] }

/-- Claim C1: settlement happens at most once — if every bet stored under
`betId` is already settled (`isActive = false`), then a further settlement
attempt through `cashOutBet` returns the storage unchanged (so `cashOutAt`,
`winAmount`, the status and every balance are untouched) and emits no
event: the `isActive` check in the lookup is the sole gate to mutation. -/
theorem cashOutBet_settled_noop (s : Storage) (betId userId : String) (m : ℚ)
    (h : ∀ b ∈ s.bets, b.id = betId → b.isActive = false) :
    cashOutBet s betId userId m = (s, []) := by
  have hfind : (s.getBetsByUserId userId).find?
      (fun b => b.id == betId && b.isActive) = none := by
    rw [List.find?_eq_none]
    intro b hb
    have hb2 : b ∈ s.bets := List.mem_of_mem_filter hb
    by_cases hid : b.id = betId
    · simp [hid, h b hb2 hid]
    · simp [hid]
  simp only [cashOutBet, hfind]

/-- Witness for C1: the concrete settled-bet storage is returned unchanged
with no event. -/
theorem cashOutBet_settled_noop_witness :
    (∀ b ∈ settledBetStorage.bets, b.id = "b1" → b.isActive = false) ∧
      cashOutBet settledBetStorage "b1" "u1" (3/2) = (settledBetStorage, []) :=
  ⟨by simp [settledBetStorage],
   cashOutBet_settled_noop settledBetStorage "b1" "u1" (3/2)
     (by simp [settledBetStorage])⟩

/-- A one-user, one-game, one-active-bet storage: user `u1` with balance
`bal`, and a bet of `a` with auto-cash-out threshold `t` on round 127535. -/
def oneBetStorage (a t bal : ℚ) : Storage :=
  { users := [{ id := "u1", username := "alice", balance := bal }],
    games := [{ id := "g1", roundId := 127535, multiplier := 0, hash := "h",
                salt := some "s", crashed := false }],
    bets := [{ id := "b1", userId := "u1", gameId := "g1", amount := a,
               autoCashOut := some t, cashOutAt := none, winAmount := none,
               isActive := true }] }

/-- The engine state during FLYING on round 127535 at live multiplier `m`. -/
def flyingGame (m : ℚ) : GameState :=
  { roundId := 127535, phase := Phase.flying, multiplier := m, startTime := 0,
    duration := 0, hash := "h", salt := some "s", countdown := 0 }

/-- Counterexample to claim C2: a bet of 100 with `autoCashOutAt = 2.00`,
observed by the auto-cash-out scan at live multiplier 2.05, is settled with
locked multiplier 2.05 and payout 205.00 — not with the threshold 2.00 and
payout 200.00 that the claim requires. -/
theorem autoCashOut_not_locked_at_threshold :
    (processAutoCashOuts (flyingGame (41/20)) (oneBetStorage 100 2 1000)).1.bets.map
        (fun b => (b.cashOutAt, b.winAmount)) = [(some (41/20), some 205)] ∧
      (some ((41 : ℚ)/20), some ((205 : ℚ))) ≠ (some ((2 : ℚ)), some ((200 : ℚ))) := by
  constructor
  · simp [processAutoCashOuts, oneBetStorage, flyingGame, cashOutBet,
          Storage.getGameByRoundId, Storage.getActiveBetsByGameId,
          Storage.getBetsByUserId, Storage.updateBetCashOut, Storage.getUser,
          Storage.updateUserBalance]
    norm_num [round2, Rat.floor_def']
  · norm_num

/-- Claim C2 as amended: a bet settled automatically during a FLYING tick is
settled at the *live* tick multiplier observed by the scan, not at its
`autoCashOutAt` threshold — for every amount `a`, threshold `t`, balance
`bal` and live multiplier `m` with `t ≤ m`, the scan settles the bet with
locked multiplier `m` and payout `round2 (a * m)`, and credits the balance
accordingly. -/
theorem processAutoCashOuts_uses_live_multiplier (a t m bal : ℚ) (ht : t ≤ m) :
    processAutoCashOuts (flyingGame m) (oneBetStorage a t bal) =
      ({ users := [{ id := "u1", username := "alice",
                     balance := round2 (bal + round2 (a * m)) }],
         games := (oneBetStorage a t bal).games,
         bets := [{ id := "b1", userId := "u1", gameId := "g1", amount := a,
                    autoCashOut := some t, cashOutAt := some m,
                    winAmount := some (round2 (a * m)), isActive := false }] },
       [Event.betCashedOut "b1" "u1" m (round2 (a * m))]) := by
  simp [processAutoCashOuts, oneBetStorage, flyingGame, cashOutBet,
        Storage.getGameByRoundId, Storage.getActiveBetsByGameId,
        Storage.getBetsByUserId, Storage.updateBetCashOut, Storage.getUser,
        Storage.updateUserBalance, ht]

/-- Witness for the amended C2 at `a = 100`, `t = 2`, `m = 2.05`,
`bal = 1000`. -/
theorem processAutoCashOuts_uses_live_multiplier_witness :
    (2 : ℚ) ≤ 41/20 ∧
      processAutoCashOuts (flyingGame (41/20)) (oneBetStorage 100 2 1000) =
        ({ users := [{ id := "u1", username := "alice",
                       balance := round2 (1000 + round2 (100 * (41/20))) }],
           games := (oneBetStorage 100 2 1000).games,
           bets := [{ id := "b1", userId := "u1", gameId := "g1", amount := 100,
                      autoCashOut := some 2, cashOutAt := some (41/20),
                      winAmount := some (round2 (100 * (41/20))),
                      isActive := false }] },
         [Event.betCashedOut "b1" "u1" (41/20) (round2 (100 * (41/20)))]) :=
  ⟨by norm_num,
   processAutoCashOuts_uses_live_multiplier 100 2 (41/20) 1000 (by norm_num)⟩


/-- The empty storage. -/
def emptyStorage : Storage := { users := [], games := [], bets := [] }

/-- Counterexample to claim C4: with random draw 99/200 the pre-computed
crash point is exactly 2.00; the flight started at time 0 crashes at the
tick at 2000 ms (the code uses the crash point as a duration in seconds),
where the multiplier curve has only reached 1.20 — so the multiplier
frozen at CRASHED is 1.20, not the pre-computed crash point 2.00. -/
theorem crash_multiplier_differs_from_crash_point :
    generateCrashPoint (99/200) = 2 ∧
      (flyingTick (startFlying 0 (99/200) waitingGame).2 2000
          (startFlying 0 (99/200) waitingGame).1 emptyStorage).1.phase =
        Phase.crashed ∧
      (flyingTick (startFlying 0 (99/200) waitingGame).2 2000
          (startFlying 0 (99/200) waitingGame).1 emptyStorage).1.multiplier =
        6/5 ∧
      (6/5 : ℚ) ≠ 2 := by
  have hcp : generateCrashPoint (99/200) = 2 := by
    norm_num [generateCrashPoint, Rat.floor_def']
  refine ⟨hcp, ?_, ?_, by norm_num⟩
  · simp [startFlying, hcp, flyingTick, crashGame, processAutoCashOuts,
          Storage.getGameByRoundId, emptyStorage]
    norm_num
  · simp [startFlying, hcp, flyingTick, crashGame, processAutoCashOuts,
          Storage.getGameByRoundId, emptyStorage, tickMultiplier]
    norm_num [round2, Rat.floor_def']

/-- Claim C4 as amended: at FLYING entry the crash deadline is fixed once
as `startTime + crashPoint * 1000` milliseconds (the pre-computed crash
point is used as a flight duration in seconds and never recomputed);
a tick transitions the round to CRASHED exactly when its time reaches that
deadline, and the multiplier frozen there is the tick-formula value
`tickMultiplier (now - startTime)` — in general different from the
pre-computed crash point. -/
theorem flying_deadline_is_crash_point_seconds (now0 r : ℚ) (g0 : GameState)
    (now : ℚ) (s : Storage) :
    (startFlying now0 r g0).2.gameEndTime = now0 + generateCrashPoint r * 1000 ∧
      ((flyingTick (startFlying now0 r g0).2 now (startFlying now0 r g0).1 s).1.phase
          = Phase.crashed ↔ now0 + generateCrashPoint r * 1000 ≤ now) ∧
      (flyingTick (startFlying now0 r g0).2 now (startFlying now0 r g0).1 s).1.multiplier
        = tickMultiplier (now - now0) := by
  refine ⟨rfl, ?_, ?_⟩
  · by_cases hle : now0 + generateCrashPoint r * 1000 ≤ now
    · simp [startFlying, flyingTick, crashGame, hle]
    · simp [startFlying, flyingTick, hle]
  · by_cases hle : now0 + generateCrashPoint r * 1000 ≤ now
    · simp [startFlying, flyingTick, crashGame, hle]
    · simp [startFlying, flyingTick, hle]


/-- After `updateBetCashOut betId c w`, every bet stored under `betId`
carries exactly the settled fields `(c, w, inactive)`. -/
lemma updateBetCashOut_settles (s : Storage) (betId : String) (c w : ℚ) :
    ∀ b ∈ (s.updateBetCashOut betId c w).bets, b.id = betId →
      b.cashOutAt = some c ∧ b.winAmount = some w ∧ b.isActive = false := by
  intro b hb hid
  simp only [Storage.updateBetCashOut, List.mem_map] at hb
  obtain ⟨b0, hb0, rfl⟩ := hb
  by_cases h : b0.id = betId
  · simp [h]
  · simp [h] at hid

/-- Updating some other bet to the swept values `(0, 0, inactive)` preserves
the property that every bet under id `i` already carries those values. -/
lemma sweep_step_preserves (s : Storage) (i j : String)
    (h : ∀ b ∈ s.bets, b.id = i →
      b.cashOutAt = some 0 ∧ b.winAmount = some 0 ∧ b.isActive = false) :
    ∀ b ∈ (s.updateBetCashOut j 0 0).bets, b.id = i →
      b.cashOutAt = some 0 ∧ b.winAmount = some 0 ∧ b.isActive = false := by
  intro b hb hid
  simp only [Storage.updateBetCashOut, List.mem_map] at hb
  obtain ⟨b0, hb0, rfl⟩ := hb
  by_cases hj : b0.id = j
  · simp [hj]
  · simp [hj] at hid ⊢
    exact h b0 hb0 hid

/-- The crash sweep fold preserves already-swept ids. -/
lemma sweep_preserves (l : List Bet) (i : String) :
    ∀ s : Storage,
      (∀ b ∈ s.bets, b.id = i →
        b.cashOutAt = some 0 ∧ b.winAmount = some 0 ∧ b.isActive = false) →
      ∀ b ∈ (l.foldl (fun acc b2 => acc.updateBetCashOut b2.id 0 0) s).bets,
        b.id = i →
          b.cashOutAt = some 0 ∧ b.winAmount = some 0 ∧ b.isActive = false := by
  induction l with
  | nil => intro s h; exact h
  | cons x xs ih =>
      intro s h
      simp only [List.foldl_cons]
      exact ih _ (sweep_step_preserves s i x.id h)

/-- The crash sweep fold settles every id occurring in the swept list to
`(0, 0, inactive)`. -/
lemma sweep_settles (l : List Bet) (i : String) :
    (∃ b ∈ l, b.id = i) →
    ∀ s : Storage,
      ∀ b ∈ (l.foldl (fun acc b2 => acc.updateBetCashOut b2.id 0 0) s).bets,
        b.id = i →
          b.cashOutAt = some 0 ∧ b.winAmount = some 0 ∧ b.isActive = false := by
  induction l with
  | nil => intro hmem; simp at hmem
  | cons x xs ih =>
      intro hmem s
      simp only [List.foldl_cons]
      rcases hmem with ⟨b, hb, hbi⟩
      rcases List.mem_cons.mp hb with heq | hbxs
      · subst heq
        subst hbi
        exact sweep_preserves xs b.id _ (updateBetCashOut_settles s b.id 0 0)
      · exact ih ⟨b, hbxs, hbi⟩ _

/-- The bets after a successful `cashOutBet` are those written by
`updateBetCashOut` (the subsequent balance credit does not touch bets). -/
lemma cashOutBet_bets (s : Storage) (betId userId : String) (m : ℚ) (tb : Bet)
    (hfind : (s.getBetsByUserId userId).find?
        (fun b => b.id == betId && b.isActive) = some tb) :
    (cashOutBet s betId userId m).1.bets =
      (s.updateBetCashOut betId m (round2 (tb.amount * m))).bets := by
  simp only [cashOutBet, hfind]
  cases (s.updateBetCashOut betId m (round2 (tb.amount * m))).getUser userId <;>
    rfl

/-- Claim C6 (payout law): (a) a bet settled through `cashOutBet` at
multiplier `m` records the locked multiplier `m` and the payout
`round2 (amount * m)` — the payout equals amount times the recorded
cash-out multiplier after two-decimal monetary rounding; (b) a bet swept
at CRASHED entry records cash-out multiplier 0 and payout 0. -/
theorem payout_law :
    (∀ (s : Storage) (betId userId : String) (m : ℚ) (tb : Bet),
      (s.getBetsByUserId userId).find?
          (fun b => b.id == betId && b.isActive) = some tb →
      ∀ b ∈ (cashOutBet s betId userId m).1.bets, b.id = betId →
        b.cashOutAt = some m ∧ b.winAmount = some (round2 (tb.amount * m)) ∧
          b.isActive = false) ∧
    (∀ (g : GameState) (s : Storage) (db : Game),
      g.phase = Phase.flying → s.getGameByRoundId g.roundId = some db →
      ∀ betId : String, (∃ b ∈ s.getActiveBetsByGameId db.id, b.id = betId) →
      ∀ b ∈ (crashGame g s).2.1.bets, b.id = betId →
        b.cashOutAt = some 0 ∧ b.winAmount = some 0 ∧ b.isActive = false) := by
  constructor
  · intro s betId userId m tb hfind b hb hid
    rw [cashOutBet_bets s betId userId m tb hfind] at hb
    exact updateBetCashOut_settles s betId m (round2 (tb.amount * m)) b hb hid
  · intro g s db hphase hdb betId hmem b hb hid
    simp only [crashGame, hphase, hdb] at hb
    cases hsalt : g.salt with
    | none =>
        rw [hsalt] at hb
        simp only at hb
        exact sweep_settles _ betId hmem _ b hb hid
    | some saltv =>
        rw [hsalt] at hb
        simp only at hb
        exact sweep_settles _ betId hmem _ b hb hid


/-- The active bet of `oneBetStorage 100 2 1000`. -/
def activeBet100 : Bet :=
  { id := "b1", userId := "u1", gameId := "g1", amount := 100,
    autoCashOut := some 2, cashOutAt := none, winAmount := none,
    isActive := true }

/-- `activeBet100` settled manually at multiplier 1.5. -/
def manualSettledBet : Bet :=
  { activeBet100 with
      cashOutAt := some (3/2),
      winAmount := some (round2 (100 * (3/2))),
      isActive := false }

/-- The active bet of `oneBetStorage 50 10 0`. -/
def activeBet50 : Bet :=
  { id := "b1", userId := "u1", gameId := "g1", amount := 50,
    autoCashOut := some 10, cashOutAt := none, winAmount := none,
    isActive := true }

/-- `activeBet50` after the crash sweep. -/
def sweptBet : Bet :=
  { activeBet50 with
      cashOutAt := some 0,
      winAmount := some 0,
      isActive := false }

/-- The stored game record of `oneBetStorage`. -/
def gameRec : Game :=
  { id := "g1", roundId := 127535, multiplier := 0, hash := "h",
    salt := some "s", crashed := false }

/-- Witness for C6: a concrete manual cash-out at 1.5 records payout
`round2 (100 * 1.5)`, and a concrete crash sweep records `(0, 0)`. -/
theorem payout_law_witness :
    (manualSettledBet.cashOutAt = some (3/2) ∧
      manualSettledBet.winAmount = some (round2 (100 * (3/2))) ∧
      manualSettledBet.isActive = false) ∧
    (sweptBet.cashOutAt = some 0 ∧ sweptBet.winAmount = some 0 ∧
      sweptBet.isActive = false) := by
  constructor
  · exact payout_law.1 (oneBetStorage 100 2 1000) "b1" "u1" (3/2) activeBet100
      (by simp [oneBetStorage, Storage.getBetsByUserId, activeBet100])
      manualSettledBet
      (by simp [cashOutBet, oneBetStorage, Storage.getBetsByUserId,
                Storage.updateBetCashOut, Storage.getUser,
                Storage.updateUserBalance, activeBet100, manualSettledBet])
      rfl
  · exact payout_law.2 (flyingGame (3/2)) (oneBetStorage 50 10 0) gameRec rfl
      (by simp [oneBetStorage, flyingGame, Storage.getGameByRoundId, gameRec])
      "b1"
      ⟨activeBet50,
        by simp [oneBetStorage, Storage.getActiveBetsByGameId, gameRec,
                 activeBet50], rfl⟩
      sweptBet
      (by simp [crashGame, flyingGame, oneBetStorage, Storage.getGameByRoundId,
                Storage.getActiveBetsByGameId, Storage.updateGameCrash,
                Storage.updateBetCashOut, gameRec, activeBet50, sweptBet])
      rfl


/-- Updating the balance of the user found under `uid` changes exactly the
balance field seen by a subsequent lookup. -/
lemma find?_map_update_balance (l : List User) (uid : String) (u : User)
    (nb : ℚ) (h : l.find? (fun x => x.id == uid) = some u) :
    (l.map (fun x => if x.id == uid then { x with balance := nb } else x)).find?
        (fun x => x.id == uid) = some { u with balance := nb } := by
  induction l with
  | nil => simp at h
  | cons x xs ih =>
      by_cases hx : x.id = uid
      · simp [hx] at h
        subst h
        simp [hx]
      · simp [hx] at h
        simpa [hx] using ih h

/-- `Storage.getUser` after `Storage.updateUserBalance` on the same id. -/
lemma getUser_updateUserBalance (s : Storage) (uid : String) (u : User)
    (nb : ℚ) (h : s.getUser uid = some u) :
    (s.updateUserBalance uid nb).getUser uid = some { u with balance := nb } :=
  find?_map_update_balance s.users uid u nb h

/-- Claim C5: with the caller identified (`getUser` finds `u`) and the
current round persisted (`getGameByRoundId` finds `db`), `placeBet`
(a) rejects without any mutation and without events whenever the phase is
not WAITING, the amount is non-positive, the amount exceeds the balance of
the caller, or the caller already holds an active bet on the round; and
(b) otherwise succeeds, debits the balance by the amount (with two-decimal
rounding) and appends exactly one new active bet, in the same step, leaving
games untouched and emitting the bet-placed event. -/
theorem placeBet_guards_and_atomic_debit (g : GameState) (s : Storage)
    (userId : String) (amount : ℚ) (auto : Option ℚ) (newBetId : String)
    (u : User) (hu : s.getUser userId = some u)
    (db : Game) (hg : s.getGameByRoundId g.roundId = some db) :
    ((g.phase ≠ Phase.waiting ∨ amount ≤ 0 ∨ u.balance < amount ∨
        (s.getBetsByUserId userId).any
          (fun b => b.gameId == db.id && b.isActive) = true) →
      (placeBet (some g) s userId amount auto newBetId).1.success = false ∧
        (placeBet (some g) s userId amount auto newBetId).2.1 = s ∧
        (placeBet (some g) s userId amount auto newBetId).2.2 = []) ∧
    (g.phase = Phase.waiting → 0 < amount → amount ≤ u.balance →
      (s.getBetsByUserId userId).any
          (fun b => b.gameId == db.id && b.isActive) = false →
      (placeBet (some g) s userId amount auto newBetId).1.success = true ∧
        (placeBet (some g) s userId amount auto newBetId).1.betId =
          some newBetId ∧
        (placeBet (some g) s userId amount auto newBetId).2.1.getUser userId =
          some { u with balance := round2 (u.balance - amount) } ∧
        (placeBet (some g) s userId amount auto newBetId).2.1.bets =
          s.bets ++ [{ id := newBetId, userId := userId, gameId := db.id,
                       amount := amount, autoCashOut := auto,
                       cashOutAt := none, winAmount := none,
                       isActive := true }] ∧
        (placeBet (some g) s userId amount auto newBetId).2.1.games =
          s.games ∧
        (placeBet (some g) s userId amount auto newBetId).2.2 =
          [Event.betPlaced userId amount auto g.roundId]) := by
  simp only [placeBet, hu, hg]
  split_ifs with h1 h2 h3 h4
  · exact ⟨fun _ => ⟨rfl, rfl, rfl⟩, fun hw => absurd hw h1⟩
  · exact ⟨fun _ => ⟨rfl, rfl, rfl⟩,
      fun _ hpos _ _ => absurd h2 (not_le.mpr hpos)⟩
  · exact ⟨fun _ => ⟨rfl, rfl, rfl⟩,
      fun _ _ hle _ => absurd h3 (not_lt.mpr hle)⟩
  · refine ⟨fun _ => ⟨rfl, rfl, rfl⟩, fun _ _ _ hfalse => ?_⟩
    rw [hfalse] at h4
    exact absurd h4 (by simp)
  · refine ⟨?_, fun _ _ _ _ => ⟨rfl, rfl, ?_, rfl, rfl, rfl⟩⟩
    · rintro (hphase | hamt | hbal | hdup)
      · exact absurd hphase h1
      · exact absurd hamt h2
      · exact absurd hbal h3
      · rw [hdup] at h4
        exact absurd rfl h4
    · exact getUser_updateUserBalance s userId u
        (round2 (u.balance - amount)) hu

/-- Witness for C5: on a concrete waiting round with a known user, balance
1000 and no active bet, placing a bet of 100 succeeds, debits the balance
to 900 and appends the new active bet. -/
theorem placeBet_guards_and_atomic_debit_witness :
    (placeBet (some waitingGame) settledBetStorage "u1" 100 none
        "b2").1.success = true ∧
      (placeBet (some waitingGame) settledBetStorage "u1" 100 none
        "b2").1.betId = some "b2" ∧
      (placeBet (some waitingGame) settledBetStorage "u1" 100 none
          "b2").2.1.getUser "u1" =
        some { id := "u1", username := "alice",
               balance := round2 (1000 - 100) } ∧
      (placeBet (some waitingGame) settledBetStorage "u1" 100 none
          "b2").2.1.bets =
        settledBetStorage.bets ++
          [{ id := "b2", userId := "u1", gameId := "g1", amount := 100,
             autoCashOut := none, cashOutAt := none, winAmount := none,
             isActive := true }] ∧
      (placeBet (some waitingGame) settledBetStorage "u1" 100 none
          "b2").2.1.games = settledBetStorage.games ∧
      (placeBet (some waitingGame) settledBetStorage "u1" 100 none
        "b2").2.2 = [Event.betPlaced "u1" 100 none 127535] :=
  (placeBet_guards_and_atomic_debit waitingGame settledBetStorage "u1" 100
      none "b2" { id := "u1", username := "alice", balance := 1000 }
      (by simp [settledBetStorage, Storage.getUser])
      { id := "g1", roundId := 127535, multiplier := 0, hash := "h",
        salt := some "s", crashed := false }
      (by simp [settledBetStorage, Storage.getGameByRoundId, waitingGame])).2
    rfl (by norm_num) (by norm_num)
    (by simp [settledBetStorage, Storage.getBetsByUserId])

/-- Claim C10: a `placeBet` call for a player with no user record returns a
failure and mutates nothing, and when the phase is WAITING (so the user
lookup is actually reached) the reported reason is exactly
"User not found". -/
theorem placeBet_unknown_user (currentGame : Option GameState) (s : Storage)
    (userId : String) (amount : ℚ) (auto : Option ℚ) (newBetId : String)
    (h : s.getUser userId = none) :
    (placeBet currentGame s userId amount auto newBetId).1.success = false ∧
      (placeBet currentGame s userId amount auto newBetId).2.1 = s ∧
      (placeBet currentGame s userId amount auto newBetId).2.2 = [] ∧
      ∀ g : GameState, currentGame = some g → g.phase = Phase.waiting →
        (placeBet currentGame s userId amount auto newBetId).1.message =
          "User not found" := by
  cases currentGame with
  | none =>
      exact ⟨rfl, rfl, rfl, fun g hg => by simp at hg⟩
  | some g =>
      by_cases hp : g.phase = Phase.waiting
      · simp only [placeBet, h]
        rw [if_neg (fun hc => hc hp)]
        exact ⟨rfl, rfl, rfl, fun g2 hg2 hp2 => rfl⟩
      · simp only [placeBet]
        rw [if_pos hp]
        exact ⟨rfl, rfl, rfl, fun g2 hg2 hp2 => by cases hg2; exact absurd hp2 hp⟩

/-- Witness for C10: placing a bet for the unknown player "ghost" against
a concrete waiting round fails with "User not found" and changes nothing. -/
theorem placeBet_unknown_user_witness :
    (placeBet (some waitingGame) emptyStorage "ghost" 5 none
        "b9").1.success = false ∧
      (placeBet (some waitingGame) emptyStorage "ghost" 5 none "b9").2.1 =
        emptyStorage ∧
      (placeBet (some waitingGame) emptyStorage "ghost" 5 none "b9").2.2 =
        [] ∧
      (placeBet (some waitingGame) emptyStorage "ghost" 5 none
        "b9").1.message = "User not found" := by
  have t := placeBet_unknown_user (some waitingGame) emptyStorage "ghost" 5
    none "b9" (by simp [emptyStorage, Storage.getUser])
  exact ⟨t.1, t.2.1, t.2.2.1, t.2.2.2 waitingGame rfl rfl⟩

end CrashWin
